import Mathlib

/-
Shallow embedding of `src/lib/HotKeys.js` (react-hotkeys).

The file under src/ is the `HotKeys` React wrapper component.  Its
collaborators (`KeyEventManager`, the default `ignoreEventsCondition`
module, `Logger`, `FocusTrap`) are not part of src/, so manager behaviour
is passed in as function parameters (the value the manager call returns),
and where a claim depends on manager internals those are modelled from the
spec, marked `Modelled from the spec:` in the doc comment.
-/

/-- The component-local mutable fields of a `HotKeys` instance that the
claims are about: `this._focusTreeIds` (an array, initially undefined,
modelled as `Option (List Nat)`), `this._componentIndex` (initially
undefined) and `this._focused` (only truthiness-tested, so `Bool` with
initial `false` is observationally faithful to the initial `undefined`). -/
structure HotKeysState where
  focusTreeIds : Option (List Nat)
  componentIndex : Option Nat
  focused : Bool
  deriving DecidableEq, Repr

/-- The state of a freshly constructed component: none of the three
fields has been assigned yet. -/
def initState : HotKeysState := ⟨none, none, false⟩

/-- `_focusTreeIdsPush` (src/lib/HotKeys.js lines 202-208): lazily creates
the array, then `Array.prototype.push` appends at the BACK. -/
def _focusTreeIdsPush (s : HotKeysState) (id : Nat) : HotKeysState :=
  match s.focusTreeIds with
  | none => { s with focusTreeIds := some [id] }
  | some l => { s with focusTreeIds := some (l ++ [id]) }

/-- `_focusTreeIdsShift` (lines 210-214): `Array.prototype.shift` removes
the FRONT element; a no-op when the array is undefined or empty. -/
def _focusTreeIdsShift (s : HotKeysState) : HotKeysState :=
  match s.focusTreeIds with
  | none => s
  | some l => { s with focusTreeIds := some l.tail }

/-- `_getFocusTreeId` (lines 216-220): returns `this._focusTreeIds[0]`
when the array exists, `undefined` otherwise (also `undefined` when the
array is empty, since indexing past the end yields `undefined`). -/
def _getFocusTreeId (s : HotKeysState) : Option Nat :=
  match s.focusTreeIds with
  | none => none
  | some l => l.head?

/-- `_handleFocus` (lines 237-248), state effect: `r` is the
`[focusTreeId, componentIndex]` pair returned by the manager's
`handleFocus`; the component stores the index, pushes the id, and sets
`this._focused = true`. -/
def _handleFocus (r : Nat × Nat) (s : HotKeysState) : HotKeysState :=
  let s1 := { s with componentIndex := some r.2 }
  let s2 := _focusTreeIdsPush s1 r.1
  { s2 with focused := true }

/-- `_handleBlur` (lines 255-267), state effect: the manager's
`handleBlur` is called with `(this._getFocusTreeId(), this._componentIndex)`
and its boolean return is `mgrHandleBlur` applied to those arguments; the
front id is shifted off exactly when that value is false, and
`this._focused` becomes false. -/
def _handleBlur (mgrHandleBlur : Option Nat → Option Nat → Bool)
    (s : HotKeysState) : HotKeysState :=
  let retainCurrentFocusTreeId := mgrHandleBlur (_getFocusTreeId s) s.componentIndex
  let s1 := if retainCurrentFocusTreeId then s else _focusTreeIdsShift s
  { s1 with focused := false }

/-- The `(this._getFocusTreeId(), this._componentIndex)` pair that every
key-event handler (lines 274-306) passes to the manager's dispatch call. -/
def dispatchArgs (s : HotKeysState) : Option Nat × Option Nat :=
  (_getFocusTreeId s, s.componentIndex)

/-- `_handleKeyDown` (lines 274-280): calls the manager's `handleKeyDown`
with the cached ids (modelled by applying `mgr` to them) and shifts the
front focus-tree id off exactly when the call returns true. -/
def _handleKeyDown (mgr : Option Nat → Option Nat → Bool)
    (s : HotKeysState) : HotKeysState :=
  let discardFocusTreeId := mgr (_getFocusTreeId s) s.componentIndex
  if discardFocusTreeId then _focusTreeIdsShift s else s

/-- `_handleKeyPress` (lines 287-293): same structure as `_handleKeyDown`,
delegating to the manager's `handleKeyPress`. -/
def _handleKeyPress (mgr : Option Nat → Option Nat → Bool)
    (s : HotKeysState) : HotKeysState :=
  let discardFocusTreeId := mgr (_getFocusTreeId s) s.componentIndex
  if discardFocusTreeId then _focusTreeIdsShift s else s

/-- `_handleKeyUp` (lines 300-306): same structure as `_handleKeyDown`,
delegating to the manager's `handleKeyUp`. -/
def _handleKeyUp (mgr : Option Nat → Option Nat → Bool)
    (s : HotKeysState) : HotKeysState :=
  let discardFocusTreeId := mgr (_getFocusTreeId s) s.componentIndex
  if discardFocusTreeId then _focusTreeIdsShift s else s

/-- `componentWillUnmount` (lines 228-230): delegates to `_handleBlur`. -/
def componentWillUnmount (mgrHandleBlur : Option Nat → Option Nat → Bool)
    (s : HotKeysState) : HotKeysState :=
  _handleBlur mgrHandleBlur s

/-- `defaultKeyEvent` (line 104): the default key event used for calling
handlers. -/
def defaultKeyEvent : String := "keypress"

/-- The object built by `_getFocusOptions` (lines 308-312). -/
structure FocusOptions where
  defaultKeyEvent : String
  deriving DecidableEq, Repr

/-- `_getFocusOptions` (lines 308-312): `{ defaultKeyEvent: this.constructor.defaultKeyEvent }`. -/
def _getFocusOptions : FocusOptions := ⟨defaultKeyEvent⟩

/-- `componentWillReceiveProps` (lines 222-226): when `this._focused` is
truthy, calls the manager's `updateComponent` with
`(this._getFocusTreeId(), this._componentIndex, nextProps.keyMap,
nextProps.handlers, this._getFocusOptions())`; otherwise makes no manager
call.  The returned value is the argument tuple of the manager call made,
or `none` when no call happens.  `K` and `H` stand for the keyMap and
handlers prop types, which the component forwards opaquely. -/
def componentWillReceiveProps {K H : Type} (s : HotKeysState)
    (nextKeyMap : K) (nextHandlers : H) :
    Option (Option Nat × Option Nat × K × H × FocusOptions) :=
  if s.focused then
    some (_getFocusTreeId s, s.componentIndex, nextKeyMap, nextHandlers, _getFocusOptions)
  else
    none

/-- One call the wrapper component makes while handling a focus or blur
event: either the user-supplied prop callback applied to the forwarded
`...arguments`, or the manager call (`handleFocus` / `handleBlur`). -/
inductive WrapperCall (E : Type) where
  | userCallback : E → WrapperCall E
  | managerCall : WrapperCall E
  deriving DecidableEq, Repr

/-- `_handleFocus` (lines 237-248), call order: `this.props.onFocus`,
when present, is invoked first with the arguments forwarded verbatim,
then the manager's `handleFocus` is called.  `hasOnFocus` is the
truthiness of the `onFocus` prop and `args` the event arguments. -/
def handleFocusCallSequence {E : Type} (hasOnFocus : Bool) (args : E) :
    List (WrapperCall E) :=
  (if hasOnFocus then [WrapperCall.userCallback args] else [])
    ++ [WrapperCall.managerCall]

/-- `_handleBlur` (lines 255-267), call order: `this.props.onBlur`, when
present, is invoked first with the arguments forwarded verbatim, then the
manager's `handleBlur` is called. -/
def handleBlurCallSequence {E : Type} (hasOnBlur : Bool) (args : E) :
    List (WrapperCall E) :=
  (if hasOnBlur then [WrapperCall.userCallback args] else [])
    ++ [WrapperCall.managerCall]

/-- A keyboard event, reduced to the one attribute the default ignore
filter inspects: whether the event originates from an editable form
field. -/
structure KeyboardEvent where
  fromEditableFormField : Bool
  deriving DecidableEq, Repr

/-- Modelled from the spec: the default filter module
(`./lib/ignoreEventsCondition`, imported on line 6) is not under src/;
per the spec the default "filter ignores events originating from editable
form fields". -/
def defaultIgnoreEventsCondition (e : KeyboardEvent) : Bool :=
  e.fromEditableFormField

/-- The static `configuration` object (lines 81-83, mutated on line 98).
The object spread `{ ...this.configuration, ...configuration }` copies
every supplied key over the stored one; the claims only observe
`logLevel` and `ignoreEventsFilter`, so those are the modelled fields. -/
structure Configuration where
  logLevel : String
  ignoreEventsFilter : Option (KeyboardEvent → Bool)

/-- The static (class-level) state of `HotKeys`: the
`ignoreEventsCondition` static (initially the method on lines 77-79,
reassigned by lines 61-70) and the `configuration` static. -/
structure HotKeysStatics where
  ignoreEventsCondition : KeyboardEvent → Bool
  configuration : Configuration

/-- The initial static state: `ignoreEventsCondition` delegates to the
default module function (lines 77-79) and `configuration` is
`{ logLevel: 'warn' }` (lines 81-83). -/
def defaultStatics : HotKeysStatics :=
  { ignoreEventsCondition := fun e => defaultIgnoreEventsCondition e
    configuration := { logLevel := "warn", ignoreEventsFilter := none } }

/-- `setIgnoreEventsCondition` (lines 61-63): `this.ignoreEventsCondition = func`. -/
def setIgnoreEventsCondition (st : HotKeysStatics)
    (func : KeyboardEvent → Bool) : HotKeysStatics :=
  { st with ignoreEventsCondition := func }

/-- `resetIgnoreEventsCondition` (lines 68-70): reassigns the static to
the imported default module function. -/
def resetIgnoreEventsCondition (st : HotKeysStatics) : HotKeysStatics :=
  { st with ignoreEventsCondition := defaultIgnoreEventsCondition }

/-- The configuration object passed to `configure`; each field is `none`
when the key is absent from the supplied object. -/
structure ConfigArg where
  ignoreEventsFilter : Option (KeyboardEvent → Bool)
  logLevel : Option String

/-- `configure` (lines 91-99): if `configuration.ignoreEventsFilter` is
truthy, installs it via `setIgnoreEventsCondition`; then replaces the
stored configuration with `{ ...this.configuration, ...configuration }`
(supplied keys win, absent keys keep the stored value).  No validation is
performed on any field. -/
def configure (st : HotKeysStatics) (cfg : ConfigArg) : HotKeysStatics :=
  let st1 :=
    match cfg.ignoreEventsFilter with
    | some f => setIgnoreEventsCondition st f
    | none => st
  { st1 with
      configuration :=
        { logLevel :=
            match cfg.logLevel with
            | some v => v
            | none => st1.configuration.logLevel
          ignoreEventsFilter :=
            match cfg.ignoreEventsFilter with
            | some f => some f
            | none => st1.configuration.ignoreEventsFilter } }

/-- The object built by `_getEventOptions` (lines 314-318) and passed to
the manager on every key-event dispatch. -/
structure EventOptions where
  ignoreEventsCondition : KeyboardEvent → Bool

/-- `_getEventOptions` (lines 314-318):
`{ ignoreEventsCondition: this.constructor.ignoreEventsCondition }`. -/
def _getEventOptions (st : HotKeysStatics) : EventOptions :=
  { ignoreEventsCondition := st.ignoreEventsCondition }

/-- Modelled from the spec: the dispatch routine of `KeyEventManager`
(not under src/) — "If focusTreeId is undefined (component never
registered a tree, e.g. called before any focus), return false"
(spec section 4.3 step 2).  For a defined id the result is given by the
abstract remainder `k`.  Instantiating `k` with the boolean return models
`discardFocusTreeId`; instantiating it with whether any handler fires
models handler invocation — both are false on an undefined id. -/
def specManagerKeyDispatch (k : Nat → Option Nat → Bool)
    (focusTreeId : Option Nat) (componentIndex : Option Nat) : Bool :=
  match focusTreeId with
  | none => false
  | some id => k id componentIndex

/-- Modelled from the spec: a `ComponentRegistration` held by the Binding
Registry (not under src/) inside one focus tree — its component index,
its keyMap (action name → single-combo pattern, patterns rendered as the
canonical combo string) and its handlers (action name → handler,
handlers rendered as opaque identifiers). -/
structure Registration where
  componentIndex : Nat
  keyMap : List (String × String)
  handlers : List (String × Nat)
  deriving DecidableEq, Repr

/-- First value bound to key `a` in an association list. -/
def assocLookup {α : Type} : List (String × α) → String → Option α
  | [], _ => none
  | (k, v) :: rest, a => if k = a then some v else assocLookup rest a

/-- Modelled from the spec: `resolveBindings` walks "from the
registration at `componentIndex` outward to the tree root"; `regs` lists
the tree's registrations outer-to-inner (component indices monotonically
increasing), and the resulting chain is ordered innermost-first. -/
def dispatchChain (regs : List Registration) (origin : Nat) :
    List Registration :=
  (regs.filter (fun r => r.componentIndex ≤ origin)).reverse

/-- Modelled from the spec: "when two components in the same tree bind
the same ActionName to different sequences, the inner one shadows the
outer one for matching purposes" — the innermost registration whose
keyMap binds some action to the completed combo determines the matched
action. -/
def matchedAction : List Registration → String → Option String
  | [], _ => none
  | r :: rest, combo =>
    match r.keyMap.find? (fun p => p.2 = combo) with
    | some p => some p.1
    | none => matchedAction rest combo

/-- Modelled from the spec: "handlers and key-maps are resolved
independently by action name" — the handler for the resolved action is
taken from the innermost registration that supplies one (fallthrough to
the next-outer handler otherwise).  Returns the handler together with the
component index it came from. -/
def resolvedHandler : List Registration → String → Option (Nat × Nat)
  | [], _ => none
  | r :: rest, a =>
    match assocLookup r.handlers a with
    | some h => some (h, r.componentIndex)
    | none => resolvedHandler rest a

/-- Modelled from the spec: dispatch of a completed combo originating at
component `origin` — resolve the matched action over the chain from the
origin outward, then invoke that action's resolved handler. -/
def dispatchCombo (regs : List Registration) (origin : Nat)
    (combo : String) : Option (Nat × Nat) :=
  match matchedAction (dispatchChain regs origin) combo with
  | none => none
  | some a => resolvedHandler (dispatchChain regs origin) a

/-- C1: the claim is false on the code. `_focusTreeIdsPush` appends the
id returned by `handleFocus` at the BACK of the array, while
`_getFocusTreeId` reads index 0 (the FRONT, i.e. the oldest retained id).
Reachable scenario: focus returns (1, 0); blur with `handleBlur`
returning true retains the stack [1]; a second focus returns (2, 5),
leaving the stack [1, 2] — the key handlers then report focus-tree id 1,
not the most-recently-returned 2. -/
theorem C1_counterexample :
    dispatchArgs
        (_handleFocus (2, 5)
          (_handleBlur (fun _ _ => true) (_handleFocus (1, 0) initState)))
      = (some 1, some 5) ∧
    dispatchArgs
        (_handleFocus (2, 5)
          (_handleBlur (fun _ _ => true) (_handleFocus (1, 0) initState)))
      ≠ (some 2, some 5) := by
  decide

/-- C1 (amended): after a focus event, key events are reported with the
componentIndex returned by the most recent `handleFocus` call, and with
the focus-tree id at the FRONT of the local stack; that front id is the
one the most recent `handleFocus` returned exactly when the stack was
empty or unset beforehand — when the stack was non-empty, the previously
retained front id (the oldest, not the most recent) keeps being
reported. -/
theorem C1_amended_dispatch_ids (r : Nat × Nat) (s : HotKeysState) :
    (dispatchArgs (_handleFocus r s)).2 = some r.2 ∧
    (_getFocusTreeId s = none →
      dispatchArgs (_handleFocus r s) = (some r.1, some r.2)) ∧
    (∀ x, _getFocusTreeId s = some x →
      (dispatchArgs (_handleFocus r s)).1 = some x) := by
  obtain ⟨ids, ci, f⟩ := s
  cases ids with
  | none =>
    simp [dispatchArgs, _handleFocus, _focusTreeIdsPush, _getFocusTreeId]
  | some l =>
    cases l <;>
      simp [dispatchArgs, _handleFocus, _focusTreeIdsPush, _getFocusTreeId]

/-- C1 (amended) witness at a concrete input: first focus from the fresh
state reports exactly the returned pair. -/
theorem C1_amended_dispatch_ids_witness :
    dispatchArgs (_handleFocus (1, 0) initState) = (some 1, some 0) :=
  (C1_amended_dispatch_ids (1, 0) initState).2.1 rfl

/-- C2: on blur, the component shifts off the front entry of its cached
focus-tree-id stack exactly when the manager's `handleBlur` (called with
the cached ids) returns false; when it returns true the stack is left
unchanged; in both cases `this._focused` becomes false afterwards. -/
theorem C2_blur_stack (mgr : Option Nat → Option Nat → Bool)
    (s : HotKeysState) :
    (_handleBlur mgr s).focused = false ∧
    (mgr (_getFocusTreeId s) s.componentIndex = true →
      (_handleBlur mgr s).focusTreeIds = s.focusTreeIds) ∧
    (mgr (_getFocusTreeId s) s.componentIndex = false →
      ∀ x l, s.focusTreeIds = some (x :: l) →
        (_handleBlur mgr s).focusTreeIds = some l) := by
  refine ⟨?_, ?_, ?_⟩
  · cases hb : mgr (_getFocusTreeId s) s.componentIndex <;>
      simp [_handleBlur, hb]
  · intro hb
    simp [_handleBlur, hb]
  · intro hb x l hl
    simp [_handleBlur, hb, _focusTreeIdsShift, hl]

/-- C2 witness at a concrete input: `handleBlur` returning false shifts
the front id 3 off the stack [3, 4]. -/
theorem C2_blur_stack_witness :
    (_handleBlur (fun _ _ => false)
        ⟨some [3, 4], some 1, true⟩).focusTreeIds = some [4] :=
  (C2_blur_stack (fun _ _ => false) ⟨some [3, 4], some 1, true⟩).2.2 rfl 3 [4] rfl

/-- C3: each of the three key-event handlers shifts off the front entry
of the cached focus-tree-id stack exactly when the corresponding manager
dispatch call (applied to the cached ids) returns true; when it returns
false the whole component state — stack and componentIndex included — is
unchanged, and in the true case componentIndex is still unchanged. -/
theorem C3_key_handlers_stack
    (mgrD mgrP mgrU : Option Nat → Option Nat → Bool) (s : HotKeysState) :
    (mgrD (_getFocusTreeId s) s.componentIndex = false →
      _handleKeyDown mgrD s = s) ∧
    (mgrP (_getFocusTreeId s) s.componentIndex = false →
      _handleKeyPress mgrP s = s) ∧
    (mgrU (_getFocusTreeId s) s.componentIndex = false →
      _handleKeyUp mgrU s = s) ∧
    (mgrD (_getFocusTreeId s) s.componentIndex = true →
      (_handleKeyDown mgrD s).componentIndex = s.componentIndex ∧
      ∀ x l, s.focusTreeIds = some (x :: l) →
        (_handleKeyDown mgrD s).focusTreeIds = some l) ∧
    (mgrP (_getFocusTreeId s) s.componentIndex = true →
      (_handleKeyPress mgrP s).componentIndex = s.componentIndex ∧
      ∀ x l, s.focusTreeIds = some (x :: l) →
        (_handleKeyPress mgrP s).focusTreeIds = some l) ∧
    (mgrU (_getFocusTreeId s) s.componentIndex = true →
      (_handleKeyUp mgrU s).componentIndex = s.componentIndex ∧
      ∀ x l, s.focusTreeIds = some (x :: l) →
        (_handleKeyUp mgrU s).focusTreeIds = some l) := by
  refine ⟨?_, ?_, ?_, ?_, ?_, ?_⟩ <;> intro hb
  · simp [_handleKeyDown, hb]
  · simp [_handleKeyPress, hb]
  · simp [_handleKeyUp, hb]
  · refine ⟨?_, ?_⟩
    · cases hids : s.focusTreeIds <;>
        simp [_handleKeyDown, hb, _focusTreeIdsShift, hids]
    intro x l hl
    simp [_handleKeyDown, hb, _focusTreeIdsShift, hl]
  · refine ⟨?_, ?_⟩
    · cases hids : s.focusTreeIds <;>
        simp [_handleKeyPress, hb, _focusTreeIdsShift, hids]
    intro x l hl
    simp [_handleKeyPress, hb, _focusTreeIdsShift, hl]
  · refine ⟨?_, ?_⟩
    · cases hids : s.focusTreeIds <;>
        simp [_handleKeyUp, hb, _focusTreeIdsShift, hids]
    intro x l hl
    simp [_handleKeyUp, hb, _focusTreeIdsShift, hl]

/-- C3 witness at a concrete input: a dispatch call returning false
leaves the fresh state untouched. -/
theorem C3_key_handlers_stack_witness :
    _handleKeyDown (fun _ _ => false) initState = initState :=
  (C3_key_handlers_stack (fun _ _ => false) (fun _ _ => false)
    (fun _ _ => false) initState).1 rfl

/-- C4: with an outer registration (index 0) binding "save" to Ctrl+S
with handler h1 and an inner registration (index 1) binding "save" to
Ctrl+S with handler h2, dispatching a completed Ctrl+S combo whose
origin is the inner component invokes h2 (from component 1) and not h1
(from component 0). -/
theorem C4_shadowing (h1 h2 : Nat) :
    dispatchCombo
        [⟨0, [("save", "ctrl+s")], [("save", h1)]⟩,
         ⟨1, [("save", "ctrl+s")], [("save", h2)]⟩] 1 "ctrl+s"
      = some (h2, 1) ∧
    dispatchCombo
        [⟨0, [("save", "ctrl+s")], [("save", h1)]⟩,
         ⟨1, [("save", "ctrl+s")], [("save", h2)]⟩] 1 "ctrl+s"
      ≠ some (h1, 0) := by
  constructor
  · rfl
  · intro hcontra
    have : dispatchCombo
        [⟨0, [("save", "ctrl+s")], [("save", h1)]⟩,
         ⟨1, [("save", "ctrl+s")], [("save", h2)]⟩] 1 "ctrl+s"
        = some (h2, 1) := rfl
    rw [this] at hcontra
    simp at hcontra

/-- C5: the claim is false on the code. `configure` performs no
validation: it spreads the supplied object over the stored configuration,
so an invalid `logLevel` such as "bogus" is stored verbatim — the stored
`configuration.logLevel` is "bogus", not the default "warn". -/
theorem C5_counterexample :
    (configure defaultStatics ⟨none, some "bogus"⟩).configuration.logLevel
      = "bogus" ∧
    (configure defaultStatics ⟨none, some "bogus"⟩).configuration.logLevel
      ≠ "warn" := by
  constructor
  · rfl
  · decide

/-- C5 (amended): `configure` never rejects a value — it stores any
supplied `logLevel` verbatim (merging the supplied keys over the stored
configuration), and a configuration object without a `logLevel` key
leaves the stored level unchanged; it is a total function, so it never
throws.  Any fallback to defaults happens downstream of `configure`, not
in it. -/
theorem C5_configure_stores_verbatim (st : HotKeysStatics) (v : String) :
    (configure st ⟨none, some v⟩).configuration.logLevel = v ∧
    (configure st ⟨none, none⟩).configuration.logLevel
      = st.configuration.logLevel := by
  exact ⟨rfl, rfl⟩

/-- C6: on receiving new props, a focused component calls the manager's
`updateComponent` with its cached front focus-tree id, its cached
componentIndex, the new keyMap, the new handlers and the focus options;
an unfocused component makes no manager call at all. -/
theorem C6_update_on_props (s : HotKeysState) {K H : Type}
    (km : K) (hs : H) :
    (s.focused = true →
      componentWillReceiveProps s km hs
        = some (_getFocusTreeId s, s.componentIndex, km, hs, _getFocusOptions)) ∧
    (s.focused = false → componentWillReceiveProps s km hs = none) := by
  constructor <;> intro h <;> simp [componentWillReceiveProps, h]

/-- C6 witness at a concrete input: a focused component with cached stack
[1] and index 0 forwards exactly those ids with the new props. -/
theorem C6_update_on_props_witness :
    componentWillReceiveProps ⟨some [1], some 0, true⟩ (3 : Nat) (4 : Nat)
      = some (some 1, some 0, 3, 4, _getFocusOptions) :=
  (C6_update_on_props ⟨some [1], some 0, true⟩ (3 : Nat) (4 : Nat)).1 rfl

/-- C7: the default static configuration has logLevel "warn", and
`configure` with an `ignoreEventsFilter` predicate installs that
predicate as the `ignoreEventsCondition` placed in the event-options
object that `_getEventOptions` builds for every key-event dispatch. -/
theorem C7_default_loglevel_and_filter_install (st : HotKeysStatics)
    (f : KeyboardEvent → Bool) :
    defaultStatics.configuration.logLevel = "warn" ∧
    (_getEventOptions (configure st ⟨some f, none⟩)).ignoreEventsCondition
      = f := by
  exact ⟨rfl, rfl⟩

/-- C8: for a component that has never gained focus (its focus-tree-id
array is still unset), every key event passes an undefined focus-tree id
to the manager, the dispatch routine returns false (and invokes no
handler, both modelled by `specManagerKeyDispatch`), and the component
state — stack and componentIndex — is completely unchanged. -/
theorem C8_never_focused_noop (k kInv : Nat → Option Nat → Bool)
    (s : HotKeysState) (h : s.focusTreeIds = none) :
    dispatchArgs s = (none, s.componentIndex) ∧
    specManagerKeyDispatch k (_getFocusTreeId s) s.componentIndex = false ∧
    specManagerKeyDispatch kInv (_getFocusTreeId s) s.componentIndex = false ∧
    _handleKeyDown (specManagerKeyDispatch k) s = s ∧
    _handleKeyPress (specManagerKeyDispatch k) s = s ∧
    _handleKeyUp (specManagerKeyDispatch k) s = s := by
  have hg : _getFocusTreeId s = none := by simp [_getFocusTreeId, h]
  refine ⟨?_, ?_, ?_, ?_, ?_, ?_⟩ <;>
    simp [dispatchArgs, hg, specManagerKeyDispatch,
      _handleKeyDown, _handleKeyPress, _handleKeyUp]

/-- C8 witness at a concrete input: even a manager remainder that always
discards cannot touch the fresh, never-focused state. -/
theorem C8_never_focused_noop_witness :
    _handleKeyDown (specManagerKeyDispatch (fun _ _ => true)) initState
      = initState :=
  (C8_never_focused_noop (fun _ _ => true) (fun _ _ => true)
    initState rfl).2.2.2.1

/-- C9: when the `onFocus` (resp. `onBlur`) prop is present, handling a
focus (resp. blur) event first invokes the user callback with the event
arguments forwarded verbatim and only then makes the manager call; when
the prop is absent, only the manager call happens. -/
theorem C9_callback_before_manager {E : Type} (args : E) :
    handleFocusCallSequence true args
      = [WrapperCall.userCallback args, WrapperCall.managerCall] ∧
    handleFocusCallSequence false args
      = ([WrapperCall.managerCall] : List (WrapperCall E)) ∧
    handleBlurCallSequence true args
      = [WrapperCall.userCallback args, WrapperCall.managerCall] ∧
    handleBlurCallSequence false args
      = ([WrapperCall.managerCall] : List (WrapperCall E)) := by
  exact ⟨rfl, rfl, rfl, rfl⟩

/-- C10: setting a custom ignore-events predicate and then resetting it
is a behavioural round-trip — afterwards `ignoreEventsCondition` agrees
with the default predicate (and with the initial static) on every
event. -/
theorem C10_set_reset_roundtrip (st : HotKeysStatics)
    (f : KeyboardEvent → Bool) (e : KeyboardEvent) :
    (resetIgnoreEventsCondition
        (setIgnoreEventsCondition st f)).ignoreEventsCondition e
      = defaultIgnoreEventsCondition e ∧
    (resetIgnoreEventsCondition
        (setIgnoreEventsCondition st f)).ignoreEventsCondition e
      = defaultStatics.ignoreEventsCondition e := by
  exact ⟨rfl, rfl⟩
